import Mathlib

/-!
Shallow embedding of the KawaiiBot daily-scheduler core:
`webhook/webhook.go` (DailyWebhook) and `scheduler/scheduler.go` (Scheduler).

Time is modelled in nanoseconds (Go's `time.Duration` unit) on a uniform
local timeline (fixed UTC offset, no DST transitions).  Channels are
modelled by their observable state: a Go receive on a closed channel is
immediately ready, so a closed `stopChan` makes the run-loop's `select`
fire the stop case at once.  The `Send` side effect is abstracted as an
oracle `send : Nat → Bool` giving the success of each 0-indexed attempt.
-/

/-- Nanoseconds in one minute (`time.Minute`). -/
def minuteNs : Nat := 60 * 1000000000

/-- Nanoseconds in 24 hours (`24 * time.Hour`). -/
def nsPerDay : Nat := 24 * 60 * 60 * 1000000000

/-- The fixed daily trigger instant, 05:00:00 local, as nanoseconds since
local midnight (`time.Date(..., 5, 0, 0, 0, now.Location())`). -/
def targetNs : Nat := 5 * 60 * 60 * 1000000000

/-- State of `webhook.DailyWebhook` (webhook/webhook.go): the webhook URL
read from the environment, the enabled flag, and the last-sent instant
(abstracted to a Nat timestamp; 0 is the zero value). -/
structure DailyWebhook where
  webhookURL : String
  enabled : Bool
  lastSent : Nat
deriving DecidableEq, Repr

/-- `webhook.New`: the `WEBHOOK_URL` environment value is a parameter.
URL-format validation in the source only logs a warning and does not
change the constructed state; `enabled` starts true and `lastSent` is the
zero value. -/
def DailyWebhook.New (envWebhookURL : String) : DailyWebhook :=
  { webhookURL := envWebhookURL, enabled := true, lastSent := 0 }

/-- `DailyWebhook.IsEnabled`: `dw.enabled && dw.webhookURL != ""`. -/
def DailyWebhook.IsEnabled (dw : DailyWebhook) : Bool :=
  dw.enabled && !(dw.webhookURL == "")

/-- `DailyWebhook.SetEnabled`: overwrite the enabled flag. -/
def DailyWebhook.SetEnabled (dw : DailyWebhook) (e : Bool) : DailyWebhook :=
  { dw with enabled := e }

/-- `DailyWebhook.Toggle`: negate the enabled flag; returns the updated
state together with the returned (new) flag value. -/
def DailyWebhook.Toggle (dw : DailyWebhook) : DailyWebhook × Bool :=
  let dw2 := { dw with enabled := !dw.enabled }
  (dw2, dw2.enabled)

/-- `Scheduler.getTimeUntilNextSend` (scheduler/scheduler.go): `nowNs` is
the current wall-clock time as nanoseconds since today's local midnight.
The source tests `now.After(target) || now.Equal(target)`, i.e.
`now ≥ target`, and then adds `24 * time.Hour` to the target; the result
is `target.Sub(now)`. -/
def getTimeUntilNextSend (nowNs : Nat) : Nat :=
  if nowNs ≥ targetNs then targetNs + nsPerDay - nowNs
  else targetNs - nowNs

/-- `maxRetries` in `sendDailyWebhook`. -/
def maxRetries : Nat := 3

/-- Observable trace of one delivery cycle (`sendDailyWebhook`):
how many `SendDailyWebhook` calls were made, the backoff sleeps performed
between failed attempts (nanoseconds, in order), whether a call
succeeded, and whether the cycle was skipped by the enabled re-check. -/
structure CycleTrace where
  sendCalls : Nat
  waits : List Nat
  succeeded : Bool
  skipped : Bool
deriving DecidableEq, Repr

/-- The retry loop `for i := 0; i < maxRetries; i++` of
`sendDailyWebhook`, started at index `i`.  Returns the number of Send
calls made from this point on, the backoff sleeps performed
(`(i+1) * 5 * time.Minute` after a failed attempt `i`, only when
`i < maxRetries-1`), and whether some attempt succeeded. -/
def sendLoop (send : Nat → Bool) (i : Nat) : Nat × List Nat × Bool :=
  if i < maxRetries then
    if send i then (1, [], true)
    else
      let waitList := if i < maxRetries - 1 then [(i + 1) * 5 * minuteNs] else []
      let r := sendLoop send (i + 1)
      (1 + r.1, waitList ++ r.2.1, r.2.2)
  else (0, [], false)
termination_by maxRetries - i

/-- `Scheduler.sendDailyWebhook`: re-check `IsEnabled` and silently skip
the whole cycle when disabled; otherwise run the retry loop. -/
def sendDailyWebhook (dw : DailyWebhook) (send : Nat → Bool) : CycleTrace :=
  if !dw.IsEnabled then
    { sendCalls := 0, waits := [], succeeded := false, skipped := true }
  else
    let r := sendLoop send 0
    { sendCalls := r.1, waits := r.2.1, succeeded := r.2.2, skipped := false }

/-- State of `scheduler.Scheduler`: the wrapped webhook, the `running`
flag, and whether `stopChan` has been closed.  The `ticker` field of the
source is never assigned and stays nil, so it carries no state. -/
structure Scheduler where
  dailyWebhook : DailyWebhook
  running : Bool
  stopChanClosed : Bool
deriving DecidableEq, Repr

/-- `scheduler.New`: fresh `stopChan` (not closed), `running` is the Bool
zero value false. -/
def Scheduler.New (dw : DailyWebhook) : Scheduler :=
  { dailyWebhook := dw, running := false, stopChanClosed := false }

/-- `Scheduler.Start`: returns (state after the call, whether the
scheduling goroutine was launched, error).  Already running is an error;
a disabled webhook returns nil without launching the loop; otherwise set
`running` and launch the loop.  The source never recreates `stopChan`. -/
def Scheduler.Start (s : Scheduler) : Scheduler × Bool × Option String :=
  if s.running then (s, false, some "scheduler is already running")
  else if !s.dailyWebhook.IsEnabled then (s, false, none)
  else ({ s with running := true }, true, none)

/-- `Scheduler.Stop`: returns (state after the call, whether `stopChan`
was closed by this call, error).  Not running is an error and touches
nothing; otherwise `close(s.stopChan)` and clear `running`
(`s.ticker` is always nil, so `ticker.Stop()` is never reached). -/
def Scheduler.Stop (s : Scheduler) : Scheduler × Bool × Option String :=
  if !s.running then (s, false, some "scheduler is not running")
  else ({ s with running := false, stopChanClosed := true }, true, none)

/-- `Scheduler.IsRunning`. -/
def Scheduler.IsRunning (s : Scheduler) : Bool :=
  s.running

/-- What the first `select` of `schedulingRoutine` does before the timer
fires (the computed wait is always positive, see the trigger theorems). -/
inductive LoopBehavior where
  | terminatesImmediately
  | waitsForTimer
deriving DecidableEq, Repr

/-- First observable step of a freshly launched `schedulingRoutine`:
receive on a cancelled context or on a closed `stopChan` is immediately
ready in Go, so the loop returns at once; otherwise it blocks on the
timer for the computed wait. -/
def Scheduler.loopFirstWait (s : Scheduler) (ctxCancelled : Bool) : LoopBehavior :=
  if ctxCancelled || s.stopChanClosed then LoopBehavior.terminatesImmediately
  else LoopBehavior.waitsForTimer

/-- The `case <-timer.C` branch of `schedulingRoutine`: run one delivery
cycle and re-arm; the scheduler state itself is not mutated by a cycle. -/
def Scheduler.onTimerFired (s : Scheduler) (send : Nat → Bool) : Scheduler × CycleTrace :=
  (s, sendDailyWebhook s.dailyWebhook send)

/-- `Scheduler.ForceSend`: returns (synchronous error, trace of the
spawned delivery task, `none` when no task was launched). -/
def Scheduler.ForceSend (s : Scheduler) (send : Nat → Bool) :
    Option String × Option CycleTrace :=
  if !s.dailyWebhook.IsEnabled then (some "daily webhook is disabled", none)
  else (none, some (sendDailyWebhook s.dailyWebhook send))

/-! Helper lemmas about the retry loop. -/

theorem sendLoop_three (send : Nat → Bool) : sendLoop send 3 = (0, [], false) := by
  unfold sendLoop
  norm_num [maxRetries]

theorem sendLoop_zero_pos (send : Nat → Bool) : 1 ≤ (sendLoop send 0).1 := by
  unfold sendLoop
  by_cases h : send 0 = true <;> simp [maxRetries, h]

/-- C1: with target hour 5:00 local, a `now` strictly before today's
target gives wait `target − now` in the open interval (0, 24h); a `now`
at or after the target gives wait `target(tomorrow) − now` in (0, 24h];
at `now = target` exactly the wait is exactly 24h. -/
theorem C1_trigger_window (nowNs : Nat) (h : nowNs < nsPerDay) :
    (nowNs < targetNs →
      getTimeUntilNextSend nowNs = targetNs - nowNs ∧
      0 < getTimeUntilNextSend nowNs ∧ getTimeUntilNextSend nowNs < nsPerDay) ∧
    (targetNs ≤ nowNs →
      getTimeUntilNextSend nowNs = targetNs + nsPerDay - nowNs ∧
      0 < getTimeUntilNextSend nowNs ∧ getTimeUntilNextSend nowNs ≤ nsPerDay) ∧
    (nowNs = targetNs → getTimeUntilNextSend nowNs = nsPerDay) := by
  have ht : targetNs = 18000000000000 := by norm_num [targetNs]
  have hd : nsPerDay = 86400000000000 := by norm_num [nsPerDay]
  unfold getTimeUntilNextSend
  refine ⟨fun hlt => ?_, fun hge => ?_, fun heq => ?_⟩
  · rw [if_neg (by omega)]
    omega
  · rw [if_pos hge]
    omega
  · rw [if_pos (le_of_eq heq.symm)]
    omega

theorem C1_trigger_window_witness :
    targetNs < nsPerDay ∧ getTimeUntilNextSend targetNs = nsPerDay :=
  ⟨by norm_num [targetNs, nsPerDay],
   (C1_trigger_window targetNs (by norm_num [targetNs, nsPerDay])).2.2 rfl⟩

/-- C2: with the webhook enabled throughout, a cycle makes at most 3 Send
calls, stops immediately after the first success, sleeps
`attemptIndex * 5 min` after failed 1-indexed attempt `attemptIndex`
(5 min after attempt 1, 10 min after attempt 2) and never after the final
attempt; the fail-fail-succeed run makes exactly 3 Send calls with sleeps
[5 min, 10 min] and stops, and the all-fail run makes exactly 3 Send
calls, sleeps [5 min, 10 min], and ends unsuccessfully. -/
theorem C2_retry_policy (dw : DailyWebhook) (send : Nat → Bool)
    (h : dw.IsEnabled = true) :
    (sendDailyWebhook dw send).sendCalls ≤ 3 ∧
    (send 0 = true →
      sendDailyWebhook dw send =
        { sendCalls := 1, waits := [], succeeded := true, skipped := false }) ∧
    (send 0 = false → send 1 = true →
      sendDailyWebhook dw send =
        { sendCalls := 2, waits := [5 * minuteNs], succeeded := true, skipped := false }) ∧
    (send 0 = false → send 1 = false → send 2 = true →
      sendDailyWebhook dw send =
        { sendCalls := 3, waits := [5 * minuteNs, 10 * minuteNs],
          succeeded := true, skipped := false }) ∧
    (send 0 = false → send 1 = false → send 2 = false →
      sendDailyWebhook dw send =
        { sendCalls := 3, waits := [5 * minuteNs, 10 * minuteNs],
          succeeded := false, skipped := false }) := by
  have hen : (!dw.IsEnabled) = false := by simp [h]
  have e3 := sendLoop_three send
  rcases h0 : send 0 <;> rcases h1 : send 1 <;> rcases h2 : send 2 <;>
    simp [sendDailyWebhook, hen, sendLoop, maxRetries, h0, h1, h2, e3]

theorem C2_retry_policy_witness :
    (DailyWebhook.New "u").IsEnabled = true ∧
    sendDailyWebhook (DailyWebhook.New "u") (fun i => decide (2 ≤ i)) =
      { sendCalls := 3, waits := [5 * minuteNs, 10 * minuteNs],
        succeeded := true, skipped := false } :=
  ⟨by decide,
   (C2_retry_policy (DailyWebhook.New "u") (fun i => decide (2 ≤ i))
      (by decide)).2.2.2.1 (by decide) (by decide) (by decide)⟩

/-- C3: the code bug behind the restartability claim, evaluated at a
concrete input.  After Start then Stop on a scheduler with an enabled
webhook, a second Start does succeed (nil error, `running = true`,
goroutine launched), but the relaunched run-loop terminates immediately:
`stopChan` was closed by Stop and is never recreated, so its very first
`select` receives from the closed channel, whereas a freshly constructed
scheduler's loop waits for the timer. -/
theorem C3_restart_loop_dead :
    (((Scheduler.New (DailyWebhook.New "u")).Start.1.Stop.1.Start.2.2 = none) ∧
      ((Scheduler.New (DailyWebhook.New "u")).Start.1.Stop.1.Start.1.running = true) ∧
      ((Scheduler.New (DailyWebhook.New "u")).Start.1.Stop.1.Start.2.1 = true)) ∧
    ((Scheduler.New (DailyWebhook.New "u")).Start.1.Stop.1.Start.1.loopFirstWait false =
      LoopBehavior.terminatesImmediately) ∧
    ((Scheduler.New (DailyWebhook.New "u")).loopFirstWait false =
      LoopBehavior.waitsForTimer) := by
  decide

/-- C4: Start on a not-running scheduler whose webhook reports disabled
returns nil, changes nothing, launches no loop, and IsRunning stays
false. -/
theorem C4_start_disabled (s : Scheduler) (h1 : s.running = false)
    (h2 : s.dailyWebhook.IsEnabled = false) :
    s.Start = (s, false, none) ∧ s.Start.1.IsRunning = false := by
  simp [Scheduler.Start, Scheduler.IsRunning, h1, h2]

theorem C4_start_disabled_witness :
    (Scheduler.New (DailyWebhook.New "")).Start =
      (Scheduler.New (DailyWebhook.New ""), false, none) ∧
    (Scheduler.New (DailyWebhook.New "")).Start.1.IsRunning = false :=
  C4_start_disabled (Scheduler.New (DailyWebhook.New "")) (by decide) (by decide)

/-- C5: Start on an already-running scheduler returns a non-nil error and
leaves the state unchanged, launching no second loop; the scheduler stays
running. -/
theorem C5_start_while_running (s : Scheduler) (h : s.running = true) :
    s.Start = (s, false, some "scheduler is already running") ∧
    s.Start.1.IsRunning = true := by
  simp [Scheduler.Start, Scheduler.IsRunning, h]

theorem C5_start_while_running_witness :
    ({ dailyWebhook := DailyWebhook.New "u", running := true,
       stopChanClosed := false : Scheduler }).Start =
      ({ dailyWebhook := DailyWebhook.New "u", running := true,
         stopChanClosed := false : Scheduler }, false,
       some "scheduler is already running") ∧
    ({ dailyWebhook := DailyWebhook.New "u", running := true,
       stopChanClosed := false : Scheduler }).Start.1.IsRunning = true :=
  C5_start_while_running _ (by decide)

/-- C6: Stop on a not-running scheduler returns a non-nil error, closes
no channel, and leaves the state unchanged; and after any successful Stop
the very next Stop errors out the same way instead of closing the channel
a second time. -/
theorem C6_stop_while_stopped (s : Scheduler) (h : s.running = false) :
    s.Stop = (s, false, some "scheduler is not running") ∧
    (∀ t : Scheduler, t.running = true →
      t.Stop.1.Stop = (t.Stop.1, false, some "scheduler is not running")) := by
  refine ⟨by simp [Scheduler.Stop, h], fun t ht => ?_⟩
  simp [Scheduler.Stop, ht]

theorem C6_stop_while_stopped_witness :
    (Scheduler.New (DailyWebhook.New "u")).Stop =
      (Scheduler.New (DailyWebhook.New "u"), false,
       some "scheduler is not running") ∧
    ({ dailyWebhook := DailyWebhook.New "u", running := true,
       stopChanClosed := false : Scheduler }).Stop.1.Stop =
      (({ dailyWebhook := DailyWebhook.New "u", running := true,
          stopChanClosed := false : Scheduler }).Stop.1, false,
       some "scheduler is not running") :=
  ⟨(C6_stop_while_stopped (Scheduler.New (DailyWebhook.New "u")) rfl).1,
   (C6_stop_while_stopped (Scheduler.New (DailyWebhook.New "u")) rfl).2 _ rfl⟩

/-- C7: ForceSend on a disabled webhook returns a non-nil error and
launches no delivery task (zero Send calls); ForceSend on an enabled
webhook returns nil and launches one delivery sequence whose trace
contains at least one Send call. -/
theorem C7_forceSend (s : Scheduler) (send : Nat → Bool) :
    (s.dailyWebhook.IsEnabled = false →
      s.ForceSend send = (some "daily webhook is disabled", none)) ∧
    (s.dailyWebhook.IsEnabled = true →
      ∃ t, s.ForceSend send = (none, some t) ∧ 1 ≤ t.sendCalls) := by
  refine ⟨fun hd => by simp [Scheduler.ForceSend, hd], fun he => ?_⟩
  refine ⟨sendDailyWebhook s.dailyWebhook send, by simp [Scheduler.ForceSend, he], ?_⟩
  have hp := sendLoop_zero_pos send
  simp [sendDailyWebhook, he]
  exact hp

theorem C7_forceSend_witness :
    ((Scheduler.New (DailyWebhook.New "")).ForceSend (fun _ => true) =
      (some "daily webhook is disabled", none)) ∧
    (∃ t, (Scheduler.New (DailyWebhook.New "u")).ForceSend (fun _ => true) =
      (none, some t) ∧ 1 ≤ t.sendCalls) :=
  ⟨(C7_forceSend (Scheduler.New (DailyWebhook.New "")) (fun _ => true)).1 (by decide),
   (C7_forceSend (Scheduler.New (DailyWebhook.New "u")) (fun _ => true)).2 (by decide)⟩

/-- C8: a scheduled cycle that fires while the webhook reports disabled
makes zero Send calls, performs no backoff sleep, is marked skipped
rather than failed, and leaves the scheduler state (including the running
flag) untouched. -/
theorem C8_silent_skip (s : Scheduler) (send : Nat → Bool)
    (h : s.dailyWebhook.IsEnabled = false) :
    (s.onTimerFired send).2 =
      { sendCalls := 0, waits := [], succeeded := false, skipped := true } ∧
    (s.onTimerFired send).1 = s ∧
    (s.onTimerFired send).1.IsRunning = s.IsRunning := by
  simp [Scheduler.onTimerFired, sendDailyWebhook, h]

theorem C8_silent_skip_witness :
    (({ dailyWebhook := DailyWebhook.New "", running := true,
        stopChanClosed := false : Scheduler }).onTimerFired (fun _ => true)).2 =
      { sendCalls := 0, waits := [], succeeded := false, skipped := true } ∧
    (({ dailyWebhook := DailyWebhook.New "", running := true,
        stopChanClosed := false : Scheduler }).onTimerFired (fun _ => true)).1 =
      { dailyWebhook := DailyWebhook.New "", running := true,
        stopChanClosed := false : Scheduler } ∧
    (({ dailyWebhook := DailyWebhook.New "", running := true,
        stopChanClosed := false : Scheduler }).onTimerFired (fun _ => true)).1.IsRunning =
      ({ dailyWebhook := DailyWebhook.New "", running := true,
         stopChanClosed := false : Scheduler }).IsRunning :=
  C8_silent_skip _ (fun _ => true) (by decide)

/-- C9: IsEnabled holds exactly when the enabled flag is set and the
webhook URL is non-empty; in particular SetEnabled true on an instance
constructed with no WEBHOOK_URL still reports disabled, so Start refuses
to launch the loop and ForceSend errors out on such an instance. -/
theorem C9_isEnabled_iff (dw : DailyWebhook) :
    (dw.IsEnabled = true ↔ dw.enabled = true ∧ dw.webhookURL ≠ "") ∧
    ((DailyWebhook.New "").SetEnabled true).IsEnabled = false ∧
    (Scheduler.New ((DailyWebhook.New "").SetEnabled true)).Start =
      (Scheduler.New ((DailyWebhook.New "").SetEnabled true), false, none) ∧
    (Scheduler.New ((DailyWebhook.New "").SetEnabled true)).ForceSend (fun _ => true) =
      (some "daily webhook is disabled", none) := by
  refine ⟨?_, by decide, by decide, by decide⟩
  simp [DailyWebhook.IsEnabled]

/-- C10: Toggle negates the enabled flag and returns the new value,
leaves webhookURL and lastSent unchanged, and applying Toggle twice
restores the original state. -/
theorem C10_toggle_involution (dw : DailyWebhook) :
    dw.Toggle.1.enabled = !dw.enabled ∧
    dw.Toggle.2 = dw.Toggle.1.enabled ∧
    dw.Toggle.1.webhookURL = dw.webhookURL ∧
    dw.Toggle.1.lastSent = dw.lastSent ∧
    dw.Toggle.1.Toggle.1 = dw := by
  cases dw
  simp [DailyWebhook.Toggle]
